import Mathlib

/-!
Shallow embedding of `src/signos/tauri-app/src-tauri/src/lib.rs` (the `run`
function and its `setup` closure), the only source file of the repository.

Modelling conventions:
* Monitor sizes are the `u32` fields of tauri's `PhysicalSize`, modelled as
  `Nat` (meaningful values are below 2^32 = 4294967296).
* The Rust cast `as i32` is the truncating cast: the bit pattern reduced
  modulo 2^32 and reinterpreted in two's complement.
* Rust `i32` addition and subtraction are modelled with two's-complement
  wrapping, the semantics of a release build (`overflow-checks = false`),
  which is the shipped binary.
* The external collaborators (window handle lookup, panel conversion, monitor
  query, position setting) are fallible; their outcomes form an environment
  record and the setup closure is a function from that environment to the
  list of collaborator calls it issues plus its result.
-/

namespace Signos

/-- Reduce an integer into the `i32` range, two's complement: the result is
congruent to `z` modulo 2^32 = 4294967296 and lies in
[-2147483648, 2147483648) (that is, [-2^31, 2^31)). -/
def i32_wrap (z : Int) : Int :=
  if z % 4294967296 < 2147483648 then z % 4294967296
  else z % 4294967296 - 4294967296

/-- The Rust truncating cast `w as i32` applied to a `u32` value `w`
(modelled as `Nat`): reduce modulo 2^32 and reinterpret in two's
complement. -/
def u32_as_i32 (w : Nat) : Int :=
  i32_wrap (w : Int)

/-- Physical monitor size as reported by `monitor.size()` in lib.rs line 63:
tauri `PhysicalSize` with `u32` fields. -/
structure PhysicalSize where
  width : Nat
  height : Nat
deriving DecidableEq

/-- `let window_width = 290;` (lib.rs line 68). -/
def window_width : Int := 290

/-- `let window_height = 380;` (lib.rs line 69). -/
def window_height : Int := 380

/-- The x coordinate computed at lib.rs line 72:
`screen_size.width as i32 - window_width - 200`, with `i32` wrapping
subtraction. -/
def place_x (w : Nat) : Int :=
  i32_wrap (i32_wrap (u32_as_i32 w - window_width) - 200)

/-- The y coordinate computed at lib.rs line 73:
`screen_size.height as i32 - window_height + 30`, with `i32` wrapping
arithmetic. -/
def place_y (h : Nat) : Int :=
  i32_wrap (i32_wrap (u32_as_i32 h - window_height) + 30)

/-- The placement computation of lib.rs lines 62-73: from the monitor's
physical size to the physical position passed to `set_position`. -/
def placement (screen_size : PhysicalSize) : Int × Int :=
  (place_x screen_size.width, place_y screen_size.height)

/-- The `PanelLevel` value used by the code (`PanelLevel::Floating`,
lib.rs line 45). Only the variant the code uses is modelled. -/
inductive PanelLevel where
  | floating
deriving DecidableEq

/-- The `StyleMask` builder of the panel extension as used at lib.rs
line 48: modelled as the set of flags the call chain switches on. -/
structure StyleMask where
  nonactivatingPanel : Bool
deriving DecidableEq

/-- `StyleMask::empty()`. -/
def StyleMask.empty : StyleMask := { nonactivatingPanel := false }

/-- `.nonactivating_panel()` builder step. -/
def StyleMask.nonactivating_panel (m : StyleMask) : StyleMask :=
  { m with nonactivatingPanel := true }

/-- The `CollectionBehavior` builder of the panel extension as used at
lib.rs lines 53-58: modelled as the set of flags the call chain switches
on. -/
structure CollectionBehavior where
  fullScreenAuxiliary : Bool
  canJoinAllSpaces : Bool
deriving DecidableEq

/-- `CollectionBehavior::new()`. -/
def CollectionBehavior.new : CollectionBehavior :=
  { fullScreenAuxiliary := false, canJoinAllSpaces := false }

/-- `.full_screen_auxiliary()` builder step. -/
def CollectionBehavior.full_screen_auxiliary (b : CollectionBehavior) :
    CollectionBehavior :=
  { b with fullScreenAuxiliary := true }

/-- `.can_join_all_spaces()` builder step. -/
def CollectionBehavior.can_join_all_spaces (b : CollectionBehavior) :
    CollectionBehavior :=
  { b with canJoinAllSpaces := true }

/-- The panel class configuration declared by the `tauri_panel!` macro
invocation at lib.rs lines 7-14. -/
structure PanelClassConfig where
  can_become_key_window : Bool
  is_floating_panel : Bool
deriving DecidableEq

/-- `SignosPanel` configuration: `can_become_key_window: true`,
`is_floating_panel: true` (lib.rs lines 9-12). -/
def SignosPanelConfig : PanelClassConfig :=
  { can_become_key_window := true, is_floating_panel := true }

/-- One observable call to an external collaborator during setup. -/
inductive Call where
  | setActivationPolicyAccessory
  | toPanel
  | setLevel (level : PanelLevel)
  | setStyleMask (mask : StyleMask)
  | setCollectionBehavior (behavior : CollectionBehavior)
  | setPosition (x y : Int)
deriving DecidableEq

/-- Calls belonging to the platform behavior selector (activation policy
and the panel-specific calls). -/
def Call.isSelectorCall : Call → Bool
  | .setActivationPolicyAccessory => true
  | .toPanel => true
  | .setLevel _ => true
  | .setStyleMask _ => true
  | .setCollectionBehavior _ => true
  | .setPosition _ _ => false

/-- Calls belonging to window geometry (the placement calculator). -/
def Call.isSetPosition : Call → Bool
  | .setPosition _ _ => true
  | _ => false

/-- Outcomes of the fallible external collaborators, fixed before the run:
whether `get_webview_window("main")` returns `Some`, whether
`to_panel` succeeds, what `current_monitor()` returns (`Err`, `Ok(None)`,
or `Ok(Some(monitor))`), and whether `set_position` succeeds. -/
structure Env where
  hasMainWindow : Bool
  toPanelOk : Bool
  currentMonitor : Except Unit (Option PhysicalSize)
  setPositionOk : Bool

/-- Result of running the setup closure: returned `Ok(())`, panicked on an
`unwrap`, or returned `Err` through the `?` operator. -/
inductive SetupResult where
  | completed
  | panicked
  | errored
deriving DecidableEq

/-- The platform behavior selector (lib.rs lines 31-59): on macOS set the
activation policy, fetch the main window (`unwrap`, line 37), and on macOS
convert it to a panel (`unwrap`, line 42) and configure level, style mask
and collection behavior. Returns the calls issued and whether the closure
is still alive (no panic so far). -/
def selectorPhase (macos : Bool) (env : Env) : List Call × Bool :=
  let t : List Call :=
    if macos then [Call.setActivationPolicyAccessory] else []
  if env.hasMainWindow = false then
    (t, false)
  else if macos then
    if env.toPanelOk = false then
      (t ++ [Call.toPanel], false)
    else
      (t ++ [Call.toPanel,
             Call.setLevel PanelLevel.floating,
             Call.setStyleMask (StyleMask.empty.nonactivating_panel),
             Call.setCollectionBehavior
               (CollectionBehavior.new.full_screen_auxiliary.can_join_all_spaces)],
       true)
  else
    (t, true)

/-- The window placement calculator (lib.rs lines 62-80):
`if let Some(monitor) = window.current_monitor()?` — an `Err` propagates,
`Ok(None)` skips placement, `Ok(Some(m))` computes the placement and calls
`set_position`, whose failure propagates through `?`. -/
def placementPhase (env : Env) : List Call × SetupResult :=
  match env.currentMonitor with
  | Except.error _ => ([], SetupResult.errored)
  | Except.ok none => ([], SetupResult.completed)
  | Except.ok (some m) =>
      ([Call.setPosition (placement m).1 (placement m).2],
       if env.setPositionOk then SetupResult.completed else SetupResult.errored)

/-- The whole setup closure (lib.rs lines 30-82): selector phase first,
then, if no unwrap panicked, the placement phase. -/
def setup (macos : Bool) (env : Env) : List Call × SetupResult :=
  match selectorPhase macos env with
  | (t, false) => (t, SetupResult.panicked)
  | (t, true) => (t ++ (placementPhase env).1, (placementPhase env).2)

/-- Fate of the process after setup: a panic aborts, and a closure `Err`
makes `builder.run(...)` return `Err`, which the final
`.expect("error while running tauri application")` (lib.rs line 84) turns
into a panic as well; only a completed setup leaves the process running. -/
inductive ProcessOutcome where
  | running
  | aborted
deriving DecidableEq

/-- Map the setup result to the fate of the process. -/
def processOutcome : SetupResult → ProcessOutcome
  | SetupResult.completed => ProcessOutcome.running
  | SetupResult.panicked => ProcessOutcome.aborted
  | SetupResult.errored => ProcessOutcome.aborted

/-- True when a trace contains no window-geometry call. -/
def noPositionCalls (t : List Call) : Bool :=
  t.all fun c => !c.isSetPosition

/-- True when a trace contains no selector (activation-policy or
panel-specific) call. -/
def noSelectorCalls (t : List Call) : Bool :=
  t.all fun c => !c.isSelectorCall

/-- True when every call of a trace is a selector call. -/
def allSelectorCalls (t : List Call) : Bool :=
  t.all Call.isSelectorCall

/-- True when every call of a trace is a window-geometry call. -/
def allPositionCalls (t : List Call) : Bool :=
  t.all Call.isSetPosition

/-- Number of `set_position` calls in a trace. -/
def countPositionCalls (t : List Call) : Nat :=
  t.countP fun c => c.isSetPosition

/-! ### Helper lemmas -/

/-- `i32_wrap` is the identity on the `i32` range. -/
theorem i32_wrap_eq_self (z : Int) (h1 : -2147483648 ≤ z)
    (h2 : z < 2147483648) : i32_wrap z = z := by
  unfold i32_wrap
  split <;> omega

/-- Exact characterization of `place_x` on `u32` inputs: it is the exact
`w - 490` precisely on the range where that value fits in `i32`, and on the
rest of the `u32` range it is `w - 490 - 2^32`. -/
theorem place_x_spec (w : Nat) (hw : w < 4294967296) :
    place_x w = if (w : Int) < 2147484138 then (w : Int) - 490
      else (w : Int) - 490 - 4294967296 := by
  unfold place_x u32_as_i32 i32_wrap window_width
  split_ifs <;> omega

/-- Exact characterization of `place_y` on `u32` inputs: it is the exact
`h - 350` precisely on the range where that value fits in `i32`, and on the
rest of the `u32` range it is `h - 350 - 2^32`. -/
theorem place_y_spec (h : Nat) (hh : h < 4294967296) :
    place_y h = if (h : Int) < 2147483998 then (h : Int) - 350
      else (h : Int) - 350 - 4294967296 := by
  unfold place_y u32_as_i32 i32_wrap window_height
  split_ifs <;> omega

/-- Every call issued by the selector phase is a selector call. -/
theorem selectorPhase_all_selector (macos : Bool) (env : Env) :
    allSelectorCalls (selectorPhase macos env).1 = true := by
  unfold allSelectorCalls selectorPhase
  rcases env with ⟨hw, tp, mon, sp⟩
  cases macos <;> cases hw <;> cases tp <;>
    simp [Call.isSelectorCall]

/-- The selector phase issues no window-geometry call. -/
theorem selectorPhase_no_position (macos : Bool) (env : Env) :
    countPositionCalls (selectorPhase macos env).1 = 0 := by
  unfold countPositionCalls selectorPhase
  rcases env with ⟨hw, tp, mon, sp⟩
  cases macos <;> cases hw <;> cases tp <;>
    simp [Call.isSetPosition]

/-- Every call issued by the placement phase is a position call. -/
theorem placementPhase_all_position (env : Env) :
    allPositionCalls (placementPhase env).1 = true := by
  unfold allPositionCalls placementPhase
  rcases env with ⟨hw, tp, mon, sp⟩
  rcases mon with e | o
  · simp
  · rcases o with _ | m <;> simp [Call.isSetPosition]

/-- With a main window, and a successful panel conversion when on macOS,
the selector phase does not panic. -/
theorem selectorPhase_alive (macos : Bool) (env : Env)
    (hmw : env.hasMainWindow = true)
    (htp : macos = true → env.toPanelOk = true) :
    (selectorPhase macos env).2 = true := by
  unfold selectorPhase
  cases macos
  · simp [hmw]
  · simp [hmw, htp rfl]

/-- When the monitor query returns a monitor, the placement phase issues
exactly the one `set_position` call at the computed placement. -/
theorem placementPhase_calls (env : Env) (m : PhysicalSize)
    (hmon : env.currentMonitor = Except.ok (some m)) :
    (placementPhase env).1 =
      [Call.setPosition (placement m).1 (placement m).2] := by
  unfold placementPhase
  rw [hmon]

/-- When the monitor query returns no monitor, the placement phase issues
no call and the closure completes. -/
theorem placementPhase_none (env : Env)
    (hmon : env.currentMonitor = Except.ok none) :
    placementPhase env = ([], SetupResult.completed) := by
  unfold placementPhase
  rw [hmon]

/-- The setup trace is the selector-phase trace followed, when no unwrap
panicked, by the placement-phase trace. -/
theorem setup_trace_split (macos : Bool) (env : Env) :
    (setup macos env).1 =
      (selectorPhase macos env).1 ++
        (if (selectorPhase macos env).2 then (placementPhase env).1 else []) := by
  unfold setup
  rcases h : selectorPhase macos env with ⟨t, alive⟩
  cases alive <;> simp [h]

/-- With a main window, a successful panel conversion when on macOS, and a
monitor present, the full setup trace is the selector calls followed by
exactly one `set_position` call at the computed placement. -/
theorem setup_trace_with_monitor (macos : Bool) (env : Env)
    (m : PhysicalSize)
    (hmw : env.hasMainWindow = true)
    (htp : macos = true → env.toPanelOk = true)
    (hmon : env.currentMonitor = Except.ok (some m)) :
    (setup macos env).1 = (selectorPhase macos env).1 ++
      [Call.setPosition (placement m).1 (placement m).2] := by
  rw [setup_trace_split, selectorPhase_alive macos env hmw htp,
    placementPhase_calls env m hmon]
  simp

/-! ### Claim theorems -/

/-- C1, counterexample: the claim quantifies over every monitor size, but at
the `u32` size 4294967295 x 4294967295 (which satisfies the stated bounds
`width ≥ 490`, `height ≥ 350`) the truncating cast makes the placement
(-491, -351), not `(width - 290 - 200, height - 380 + 30)`. -/
theorem placement_formula_univ_cex :
    490 ≤ (4294967295 : Nat) ∧ 350 ≤ (4294967295 : Nat) ∧
    placement ⟨4294967295, 4294967295⟩ = (-491, -351) ∧
    ¬ placement ⟨4294967295, 4294967295⟩ =
        ((4294967295 : Int) - 290 - 200, (4294967295 : Int) - 380 + 30) := by
  refine ⟨by norm_num, by norm_num, by decide, by decide⟩

/-- C1 (amended): for every monitor size with `490 ≤ width ≤ 2^31 + 489`
and `350 ≤ height ≤ 2^31 + 349`, the placement is exactly
`(width - 490, height - 350)` = `(width - 290 - 200, height - 380 + 30)`,
this position is the one passed to `set_position`, and the boundary size
490 x 350 yields (0, 0). -/
theorem placement_formula (macos : Bool) (env : Env) (w h : Nat)
    (hw1 : 490 ≤ w) (hw2 : w ≤ 2147484137)
    (hh1 : 350 ≤ h) (hh2 : h ≤ 2147483997)
    (hmw : env.hasMainWindow = true)
    (htp : macos = true → env.toPanelOk = true)
    (hmon : env.currentMonitor = Except.ok (some ⟨w, h⟩)) :
    placement ⟨w, h⟩ = ((w : Int) - 490, (h : Int) - 350) ∧
    (w : Int) - 490 = (w : Int) - 290 - 200 ∧
    (h : Int) - 350 = (h : Int) - 380 + 30 ∧
    Call.setPosition ((w : Int) - 490) ((h : Int) - 350) ∈ (setup macos env).1 ∧
    placement ⟨490, 350⟩ = (0, 0) := by
  have hx : place_x w = (w : Int) - 490 := by
    rw [place_x_spec w (by omega)]
    have : (w : Int) < 2147484138 := by omega
    simp [this]
  have hy : place_y h = (h : Int) - 350 := by
    rw [place_y_spec h (by omega)]
    have : (h : Int) < 2147483998 := by omega
    simp [this]
  have hp : placement ⟨w, h⟩ = ((w : Int) - 490, (h : Int) - 350) := by
    unfold placement
    rw [hx, hy]
  refine ⟨hp, by ring, by ring, ?_, by decide⟩
  rw [setup_trace_with_monitor macos env ⟨w, h⟩ hmw htp hmon, hp]
  simp

/-- C1, witness at 1920 x 1080 on macOS with all collaborators
succeeding. -/
theorem placement_formula_witness :
    placement ⟨1920, 1080⟩ = ((1920 : Int) - 490, (1080 : Int) - 350) ∧
    (1920 : Int) - 490 = (1920 : Int) - 290 - 200 ∧
    (1080 : Int) - 350 = (1080 : Int) - 380 + 30 ∧
    Call.setPosition ((1920 : Int) - 490) ((1080 : Int) - 350) ∈
      (setup true ⟨true, true, Except.ok (some ⟨1920, 1080⟩), true⟩).1 ∧
    placement ⟨490, 350⟩ = (0, 0) :=
  placement_formula true ⟨true, true, Except.ok (some ⟨1920, 1080⟩), true⟩
    1920 1080 (by norm_num) (by norm_num) (by norm_num) (by norm_num)
    rfl (fun _ => rfl) rfl

/-- C2: on monitors smaller than the 490 x 350 boundary the computed
coordinates are negative and are passed unchanged (unclamped) to
`set_position`. -/
theorem placement_no_clamping (macos : Bool) (env : Env) (w h : Nat)
    (hw : w < 490) (hh : h < 350)
    (hmw : env.hasMainWindow = true)
    (htp : macos = true → env.toPanelOk = true)
    (hmon : env.currentMonitor = Except.ok (some ⟨w, h⟩)) :
    placement ⟨w, h⟩ = ((w : Int) - 490, (h : Int) - 350) ∧
    (w : Int) - 490 < 0 ∧ (h : Int) - 350 < 0 ∧
    Call.setPosition ((w : Int) - 490) ((h : Int) - 350) ∈
      (setup macos env).1 := by
  have hx : place_x w = (w : Int) - 490 := by
    rw [place_x_spec w (by omega)]
    have : (w : Int) < 2147484138 := by omega
    simp [this]
  have hy : place_y h = (h : Int) - 350 := by
    rw [place_y_spec h (by omega)]
    have : (h : Int) < 2147483998 := by omega
    simp [this]
  have hp : placement ⟨w, h⟩ = ((w : Int) - 490, (h : Int) - 350) := by
    unfold placement
    rw [hx, hy]
  refine ⟨hp, by omega, by omega, ?_⟩
  rw [setup_trace_with_monitor macos env ⟨w, h⟩ hmw htp hmon, hp]
  simp

/-- C2, witness at the spec boundary 100 x 100: the negative position
(-390, -250) reaches `set_position` unclamped. -/
theorem placement_no_clamping_witness :
    placement ⟨100, 100⟩ = ((100 : Int) - 490, (100 : Int) - 350) ∧
    (100 : Int) - 490 < 0 ∧ (100 : Int) - 350 < 0 ∧
    Call.setPosition ((100 : Int) - 490) ((100 : Int) - 350) ∈
      (setup false ⟨true, true, Except.ok (some ⟨100, 100⟩), true⟩).1 :=
  placement_no_clamping false ⟨true, true, Except.ok (some ⟨100, 100⟩), true⟩
    100 100 (by norm_num) (by norm_num) rfl
    (fun hc => by cases hc) rfl

/-- C3: when the monitor query succeeds but reports no monitor, setup
completes successfully (`Ok(())`), no `set_position` call is made, and the
trace is exactly the selector-phase calls. -/
theorem no_monitor_skips_placement (macos : Bool) (env : Env)
    (hmw : env.hasMainWindow = true)
    (htp : macos = true → env.toPanelOk = true)
    (hmon : env.currentMonitor = Except.ok none) :
    (setup macos env).2 = SetupResult.completed ∧
    noPositionCalls (setup macos env).1 = true ∧
    (setup macos env).1 = (selectorPhase macos env).1 := by
  have halive := selectorPhase_alive macos env hmw htp
  have hnone := placementPhase_none env hmon
  have htrace : (setup macos env).1 = (selectorPhase macos env).1 := by
    rw [setup_trace_split, halive, hnone]
    simp
  refine ⟨?_, ?_, htrace⟩
  · unfold setup
    rcases hsel : selectorPhase macos env with ⟨t, alive⟩
    rw [hsel] at halive
    simp at halive
    subst halive
    simp [hnone]
  · rw [htrace]
    have hall := selectorPhase_all_selector macos env
    unfold allSelectorCalls at hall
    unfold noPositionCalls
    rw [List.all_eq_true] at hall ⊢
    intro c hc
    have := hall c hc
    cases c <;> simp_all [Call.isSelectorCall, Call.isSetPosition]

/-- C3, witness: a run on the non-panel platform whose monitor query
returns `Ok(None)` completes with no position call and an empty trace. -/
theorem no_monitor_skips_placement_witness :
    (setup false ⟨true, true, Except.ok none, true⟩).2 =
      SetupResult.completed ∧
    noPositionCalls (setup false ⟨true, true, Except.ok none, true⟩).1 =
      true ∧
    (setup false ⟨true, true, Except.ok none, true⟩).1 =
      (selectorPhase false ⟨true, true, Except.ok none, true⟩).1 :=
  no_monitor_skips_placement false ⟨true, true, Except.ok none, true⟩
    rfl (fun hc => by cases hc) rfl

/-- C4, counterexample: the panel class is declared with
`can_become_key_window: true` (lib.rs line 10), so the configuration does
not disable the ability of the window to become the key window. -/
theorem panel_key_window_cex :
    ¬ SignosPanelConfig.can_become_key_window = false := by
  decide

/-- C4 (amended): on macOS (with window and panel conversion succeeding)
the setup applies a style mask whose only set flag is
`nonactivating_panel` (the panel cannot activate the application), a
collection behavior with `full_screen_auxiliary` and `can_join_all_spaces`
set (visible across all spaces including full-screen ones), and the
floating panel level; the panel class itself keeps
`can_become_key_window = true`, so key-window ability is not disabled. -/
theorem panel_configuration (env : Env)
    (hmw : env.hasMainWindow = true) (htp : env.toPanelOk = true) :
    Call.setStyleMask { nonactivatingPanel := true } ∈ (setup true env).1 ∧
    Call.setCollectionBehavior
        { fullScreenAuxiliary := true, canJoinAllSpaces := true } ∈
      (setup true env).1 ∧
    Call.setLevel PanelLevel.floating ∈ (setup true env).1 ∧
    SignosPanelConfig.can_become_key_window = true ∧
    SignosPanelConfig.is_floating_panel = true := by
  have hsel : (selectorPhase true env).1 =
      [Call.setActivationPolicyAccessory, Call.toPanel,
       Call.setLevel PanelLevel.floating,
       Call.setStyleMask { nonactivatingPanel := true },
       Call.setCollectionBehavior
         { fullScreenAuxiliary := true, canJoinAllSpaces := true }] := by
    unfold selectorPhase
    simp [hmw, htp, StyleMask.empty, StyleMask.nonactivating_panel,
      CollectionBehavior.new, CollectionBehavior.full_screen_auxiliary,
      CollectionBehavior.can_join_all_spaces]
  have hsplit := setup_trace_split true env
  rw [hsel] at hsplit
  rw [hsplit]
  refine ⟨by simp, by simp, by simp, rfl, rfl⟩

/-- C4, witness: concrete macOS environment with all collaborators
succeeding. -/
theorem panel_configuration_witness :
    Call.setStyleMask { nonactivatingPanel := true } ∈
      (setup true ⟨true, true, Except.ok none, true⟩).1 ∧
    Call.setCollectionBehavior
        { fullScreenAuxiliary := true, canJoinAllSpaces := true } ∈
      (setup true ⟨true, true, Except.ok none, true⟩).1 ∧
    Call.setLevel PanelLevel.floating ∈
      (setup true ⟨true, true, Except.ok none, true⟩).1 ∧
    SignosPanelConfig.can_become_key_window = true ∧
    SignosPanelConfig.is_floating_panel = true :=
  panel_configuration ⟨true, true, Except.ok none, true⟩ rfl rfl

/-- C5: each startup failure — missing main window, failed panel conversion
on macOS, or failed `set_position` — leaves the process aborted: the
unwraps panic and a closure `Err` is turned into a panic by the final
`expect`, so there is no state where the process keeps running partly
configured. -/
theorem startup_errors_abort (macos : Bool) (env : Env)
    (herr : env.hasMainWindow = false ∨
      (macos = true ∧ env.hasMainWindow = true ∧ env.toPanelOk = false) ∨
      (env.hasMainWindow = true ∧ (macos = true → env.toPanelOk = true) ∧
        (∃ m, env.currentMonitor = Except.ok (some m)) ∧
        env.setPositionOk = false)) :
    processOutcome (setup macos env).2 = ProcessOutcome.aborted := by
  rcases env with ⟨hw, tp, mon, sp⟩
  rcases herr with hmw | ⟨hmac, hmw, htp⟩ | ⟨hmw, htp, ⟨m, hmon⟩, hsp⟩
  · simp only at hmw
    subst hmw
    cases macos <;> simp [setup, selectorPhase, processOutcome]
  · simp only at hmw htp
    subst hmac
    subst hmw
    subst htp
    simp [setup, selectorPhase, processOutcome]
  · simp only at hmw hsp hmon
    subst hmw
    subst hsp
    subst hmon
    cases macos
    · simp [setup, selectorPhase, placementPhase, processOutcome]
    · have htp2 : tp = true := htp rfl
      subst htp2
      simp [setup, selectorPhase, placementPhase, processOutcome]

/-- C5, witness: a run with no main window aborts. -/
theorem startup_errors_abort_witness :
    processOutcome
        (setup false ⟨false, true, Except.ok none, true⟩).2 =
      ProcessOutcome.aborted :=
  startup_errors_abort false ⟨false, true, Except.ok none, true⟩
    (Or.inl rfl)

/-- C6: on a platform without panel support (the compile-time macOS flag
false), no activation-policy or panel-specific call ever appears in the
setup trace, whatever the collaborators do. -/
theorem non_panel_platform_no_selector_calls (env : Env) :
    noSelectorCalls (setup false env).1 = true := by
  rcases env with ⟨hw, tp, mon, sp⟩
  cases hw <;> rcases mon with e | o
  · simp [setup, selectorPhase, noSelectorCalls]
  · rcases o with _ | m <;>
      simp [setup, selectorPhase, noSelectorCalls]
  · simp [setup, selectorPhase, placementPhase, noSelectorCalls]
  · rcases o with _ | m <;>
      simp [setup, selectorPhase, placementPhase, noSelectorCalls,
        Call.isSelectorCall]

/-- C7: in every run, the setup trace splits into the selector-phase calls
(activation policy and panel configuration only) followed by calls that
are all window-geometry calls: the selector completes before any geometry
is touched. -/
theorem selector_runs_before_placement (macos : Bool) (env : Env) :
    ∃ rest, (setup macos env).1 = (selectorPhase macos env).1 ++ rest ∧
      allSelectorCalls (selectorPhase macos env).1 = true ∧
      allPositionCalls rest = true := by
  refine ⟨if (selectorPhase macos env).2 then (placementPhase env).1 else [],
    setup_trace_split macos env, selectorPhase_all_selector macos env, ?_⟩
  split
  · exact placementPhase_all_position env
  · rfl

/-- C8: the placement computation is a pure function of the pair
(screen width, screen height): any two monitor records with the same
width and height yield the same (x, y); in particular two evaluations on
identical input are identical. -/
theorem placement_pure (s1 s2 : PhysicalSize)
    (hw : s1.width = s2.width) (hh : s1.height = s2.height) :
    placement s1 = placement s2 := by
  cases s1
  cases s2
  simp only at hw hh
  subst hw
  subst hh
  rfl

/-- C8, witness: two evaluations at 1366 x 768 agree. -/
theorem placement_pure_witness :
    placement ⟨1366, 768⟩ = placement ⟨1366, 768⟩ :=
  placement_pure ⟨1366, 768⟩ ⟨1366, 768⟩ rfl rfl

/-- C9, counterexample: at dimension 2^31 = 2147483648, which exceeds
2^31 - 1, the truncating cast wraps but the wrapping `i32` subtraction
wraps back, so the computed coordinates still equal the exact
`width - 490` and `height - 350`, contradicting the claim that the result
diverges from the exact formula for every dimension above 2^31 - 1. -/
theorem cast_exact_above_i32_max_cex :
    2147483647 < (2147483648 : Nat) ∧
    place_x 2147483648 = (2147483648 : Int) - 490 ∧
    place_y 2147483648 = (2147483648 : Int) - 350 := by
  refine ⟨by norm_num, by decide, by decide⟩

/-- C9 (amended): for `u32` dimensions, the computed x equals the exact
`width - 490` precisely when `width < 2^31 + 490` (and y equals the exact
`height - 350` precisely when `height < 2^31 + 350`); above those bounds
the wrapped result is exactly 2^32 below the exact value. -/
theorem cast_wrap_characterization (w h : Nat)
    (hw : w < 4294967296) (hh : h < 4294967296) :
    (place_x w = (w : Int) - 490 ↔ w < 2147484138) ∧
    (place_y h = (h : Int) - 350 ↔ h < 2147483998) ∧
    (2147484138 ≤ w → place_x w = (w : Int) - 490 - 4294967296) ∧
    (2147483998 ≤ h → place_y h = (h : Int) - 350 - 4294967296) := by
  rw [place_x_spec w hw, place_y_spec h hh]
  split_ifs <;> omega

/-- C9, witness at the top of the `u32` range, where the computed
coordinates sit 2^32 below the exact formula. -/
theorem cast_wrap_characterization_witness :
    (place_x 4294967295 = (4294967295 : Int) - 490 ↔
      (4294967295 : Nat) < 2147484138) ∧
    (place_y 4294967295 = (4294967295 : Int) - 350 ↔
      (4294967295 : Nat) < 2147483998) ∧
    (2147484138 ≤ (4294967295 : Nat) →
      place_x 4294967295 = (4294967295 : Int) - 490 - 4294967296) ∧
    (2147483998 ≤ (4294967295 : Nat) →
      place_y 4294967295 = (4294967295 : Int) - 350 - 4294967296) :=
  cast_wrap_characterization 4294967295 4294967295
    (by norm_num) (by norm_num)

/-- C10: with a monitor present, the placement step appends exactly one
`set_position` call to the selector-phase trace and nothing else: the
whole trace is the selector calls (activation policy and panel
configuration, none of them geometry) followed by that single position
call, so the earlier configuration is left untouched. -/
theorem placement_single_position_call (macos : Bool) (env : Env)
    (m : PhysicalSize)
    (hmw : env.hasMainWindow = true)
    (htp : macos = true → env.toPanelOk = true)
    (hmon : env.currentMonitor = Except.ok (some m)) :
    (setup macos env).1 = (selectorPhase macos env).1 ++
      [Call.setPosition (placement m).1 (placement m).2] ∧
    countPositionCalls (setup macos env).1 = 1 ∧
    allSelectorCalls (selectorPhase macos env).1 = true := by
  have htrace := setup_trace_with_monitor macos env m hmw htp hmon
  refine ⟨htrace, ?_, selectorPhase_all_selector macos env⟩
  rw [htrace]
  unfold countPositionCalls
  rw [List.countP_append]
  have hz := selectorPhase_no_position macos env
  unfold countPositionCalls at hz
  rw [hz]
  simp [Call.isSetPosition]

/-- C10, witness: macOS run at 1920 x 1080 with all collaborators
succeeding. -/
theorem placement_single_position_call_witness :
    (setup true ⟨true, true, Except.ok (some ⟨1920, 1080⟩), true⟩).1 =
      (selectorPhase true
          ⟨true, true, Except.ok (some ⟨1920, 1080⟩), true⟩).1 ++
        [Call.setPosition (placement ⟨1920, 1080⟩).1
          (placement ⟨1920, 1080⟩).2] ∧
    countPositionCalls
        (setup true ⟨true, true, Except.ok (some ⟨1920, 1080⟩), true⟩).1 =
      1 ∧
    allSelectorCalls
        (selectorPhase true
            ⟨true, true, Except.ok (some ⟨1920, 1080⟩), true⟩).1 =
      true :=
  placement_single_position_call true
    ⟨true, true, Except.ok (some ⟨1920, 1080⟩), true⟩ ⟨1920, 1080⟩
    rfl (fun _ => rfl) rfl

end Signos
